import Mathlib

/-!
Verification development for the feed-polling and delivery-dedup core of
`russy.py` (an RSS-to-Matrix bridge).  The Python functions
`load_state`, `save_state`, `send_html_message`, `process_feed` and
`process_feeds_loop` of class `RssBot` are shallowly embedded below;
external collaborators (the Matrix client, `feedparser`, `yaml`,
`markdown`) are made explicit parameters or modelled at the boundary the
source observes.
-/

namespace Russy

/-- A raw feed entry as produced by the external fetch/parse facility
(`data.entries` in `process_feed`, src/russy.py lines 162 and onward).
Each field models `entry.get(key)`: `none` means the key is absent,
`some s` a present string value.  `published_parsed` is the publication
timestamp modelled as seconds (a natural number); `none` when the feed
carries no parsable date. -/
structure Entry where
  id : Option String
  link : Option String
  title : Option String
  summary : Option String
  published_parsed : Option Nat
deriving DecidableEq

/-- Python truthiness of an optional string: `None` and the empty string
are falsy, every other string is truthy. -/
def pyTruthy : Option String → Bool
  | none => false
  | some s => !(s == "")

/-- Python `a or b` on optional strings: `a` when truthy, else `b`. -/
def pyOr (a b : Option String) : Option String :=
  if pyTruthy a then a else b

/-- Line 163 of src/russy.py: `entry.get("id", entry.get("link"))`, the
key used to filter entries against the delivered list.  The `id` value is
used whenever the key is present, even when it is the empty string. -/
def filterId (e : Entry) : Option String :=
  match e.id with
  | some v => some v
  | none => e.link

/-- Line 166 of src/russy.py: `entry.get("id") or entry.get("link")`, the
identifier appended to the delivered list on line 176.  Python `or` skips
a present-but-falsy `id` (such as the empty string) and falls back to the
link. -/
def entryId (e : Entry) : Option String :=
  pyOr e.id e.link

/-- The in-memory state `self.state`: the Python dict mapping feed name to
the list of delivered identifiers, modelled as an association list in
insertion order.  List elements are `Option String` because line 176 can
append Python `None` when both `id` and `link` are absent or falsy. -/
abbrev State := List (String × List (Option String))

/-- Lookup of `self.state[name]`, with the empty list when the key is
absent. -/
def getDelivered (st : State) (name : String) : List (Option String) :=
  (st.lookup name).getD []

/-- Lines 158 and 159 of src/russy.py: `if name not in self.state:
self.state[name] = []`, inserting the feed's key with an empty list when
absent. -/
def initFeed (st : State) (name : String) : State :=
  if (st.lookup name).isSome then st else st ++ [(name, [])]

/-- Line 176 of src/russy.py: `self.state[name].append(entry_id)`.  The
dict has unique keys, so mutating the slot is modelled by updating the
first pair with the matching key. -/
def appendDelivered (st : State) (name : String) (x : Option String) : State :=
  match st with
  | [] => []
  | (k, v) :: rest =>
      if name == k then (k, v ++ [x]) :: rest
      else (k, v) :: appendDelivered rest name x

/-- The sort key of line 165: `e.get("published_parsed", time.gmtime())`,
where `now` is the value of `time.gmtime()` at the poll. -/
def effKey (now : Nat) (e : Entry) : Nat :=
  e.published_parsed.getD now

/-- The ascending-key order by which Python `sorted` arranges the new
entries on line 165. -/
def leKey (now : Nat) (a b : Entry) : Prop :=
  effKey now a ≤ effKey now b

instance (now : Nat) : DecidableRel (leKey now) :=
  fun a b => Nat.decLe (effKey now a) (effKey now b)

instance (now : Nat) : IsTotal Entry (leKey now) :=
  ⟨fun a b => Nat.le_total (effKey now a) (effKey now b)⟩

instance (now : Nat) : IsTrans Entry (leKey now) :=
  ⟨fun _ _ _ hab hbc => Nat.le_trans hab hbc⟩

/-- Line 163 of src/russy.py: the list comprehension keeping the entries
whose filter identifier is not in the delivered list. -/
def newEntries (delivered : List (Option String)) (entries : List Entry) : List Entry :=
  entries.filter fun e => !(delivered.contains (filterId e))

/-- Line 165 of src/russy.py: Python `sorted` is a stable ascending sort
by the key; a stable insertion sort by the same key is extensionally the
same function. -/
def sortEntries (now : Nat) (l : List Entry) : List Entry :=
  l.insertionSort (leKey now)

/-- Line 136 of src/russy.py: `room_id.startswith("!")`, the test whether
the destination string is a concrete Matrix room identifier.  The prefix
is a single character, so the test is on the first character. -/
def startsBang (s : String) : Bool :=
  match s.data with
  | [] => false
  | c :: _ => c == '!'

/-- The observable effect of one call of `send_html_message`:
`submitted` is the `(room_id, body)` pair handed to
`self.client.room_send` when the transport was invoked at all, and
`errorLogged` records whether one of the two `self.logger.error` lines
ran.  The Python function returns `None` on every path, so its caller
observes none of this. -/
structure SendOutcome where
  submitted : Option (String × String)
  errorLogged : Bool
deriving DecidableEq

/-- Lines 133 to 150 of src/russy.py, `send_html_message`.  `room_ids` is
the alias-to-room-id cache `self.room_ids`; `transportOk room_id body`
tells whether `self.client.room_send` completes without raising (when it
raises, the exception is caught and logged on lines 149 and 150).
Markdown rendering is an excluded external; the body is carried as-is. -/
def send_html_message (room_ids : List (String × String))
    (transportOk : String → String → Bool)
    (alias_or_room_id : String) (text : String) : SendOutcome :=
  let room_id := (room_ids.lookup alias_or_room_id).getD alias_or_room_id
  if !startsBang room_id then { submitted := none, errorLogged := true }
  else if transportOk room_id text then { submitted := some (room_id, text), errorLogged := false }
  else { submitted := some (room_id, text), errorLogged := true }

/-- Lines 167 to 170 of src/russy.py: the message text built from title,
link and summary with Python `get` defaults. -/
def msgText (e : Entry) : String :=
  "**" ++ e.title.getD "No Title" ++ "**\n" ++ e.link.getD "" ++ "\n\n" ++ e.summary.getD ""

/-- Lines 152 to 178 of src/russy.py, `process_feed`, with the external
calls made explicit: `entries` is the fetch result `data.entries` and
`now` the value of `time.gmtime()` on line 165.  Returns the state after
the delivery loop (line 178 then persists exactly this state with
`save_state`) together with the send outcomes in delivery order.  The
send outcome is dropped on the floor exactly as in the source: line 176
appends the identifier unconditionally after the `await` of line 173. -/
def process_feed (room_ids : List (String × String))
    (transportOk : String → String → Bool)
    (st : State) (name room_alias : String)
    (entries : List Entry) (now : Nat) : State × List SendOutcome :=
  let st1 := initFeed st name
  let fresh := newEntries (getDelivered st1 name) entries
  (sortEntries now fresh).foldl
    (fun acc e =>
      (appendDelivered acc.1 name (entryId e),
       acc.2 ++ [send_html_message room_ids transportOk room_alias (msgText e)]))
    (st1, [])

/-- The result of `yaml.safe_load` on the state file: `ok v` is a
successful parse, where `v = none` models YAML null (the result for an
empty file, handled by the `or {}` on line 89), and `err` an unhandled
`yaml.YAMLError`. -/
inductive YamlLoad where
  | ok (v : Option State)
  | err
deriving DecidableEq

/-- Lines 85 to 89 of src/russy.py, `load_state`.  `fileExists` models
`os.path.exists(STATE_FILE)`.  The `safe_load` call is not wrapped in any
handler, so a parse failure propagates as an exception, modelled by
`Except.error ()`. -/
def load_state (fileExists : Bool) (parsed : YamlLoad) : Except Unit State :=
  if !fileExists then Except.ok []
  else
    match parsed with
    | YamlLoad.ok v => Except.ok (v.getD [])
    | YamlLoad.err => Except.error ()

/-- One primitive file operation a crash can interrupt between. -/
inductive FileOp where
  | truncate
  | write (s : String)
deriving DecidableEq

/-- Effect of one file operation on the current file content. -/
def applyOp (content : String) : FileOp → String
  | FileOp.truncate => ""
  | FileOp.write s => content ++ s

/-- File content after a sequence of operations. -/
def runOps (content : String) (ops : List FileOp) : String :=
  ops.foldl applyOp content

/-- Lines 91 to 94 of src/russy.py, `save_state`: `open(STATE_FILE, "w")`
truncates the state file in place, then `yaml.dump` writes the serialized
document `doc` into it.  No temporary file and no rename are involved. -/
def save_state_ops (doc : String) : List FileOp :=
  [FileOp.truncate, FileOp.write doc]

/-- The atomicity property the specification asserts of `save`: a crash
after any prefix of the operations leaves the file holding either the
complete old document or the complete new one. -/
def atomicOnCrash (ops : List FileOp) (old cur : String) : Prop :=
  ∀ k, runOps old (ops.take k) = old ∨ runOps old (ops.take k) = cur

/-- Lines 44 to 51 of src/russy.py, `process_feeds_loop`: a single task
iterates over the configured feed list; after processing each feed it
sleeps that feed's interval before moving to the next feed.  With
processing time abstracted to zero, one full pass over the list takes the
sum of all configured intervals.  `feeds` is the configured list of
(name, interval-seconds) pairs. -/
def roundLen (feeds : List (String × Nat)) : Nat :=
  (feeds.map Prod.snd).sum

/-- Start time of the poll of the feed at position `i` in round `r` of
`process_feeds_loop`: every earlier feed of the round is processed and
slept through first. -/
def pollTime (feeds : List (String × Nat)) (i r : Nat) : Nat :=
  r * roundLen feeds + ((feeds.take i).map Prod.snd).sum

/-- Time between two consecutive polls of the feed at position `i`. -/
def pollGap (feeds : List (String × Nat)) (i r : Nat) : Nat :=
  pollTime feeds i (r + 1) - pollTime feeds i r

/-! Helper lemmas about the association-list state. -/

/-- Lookup distributes over append when the key is absent on the left. -/
theorem lookup_append_none {β : Type} (l l2 : List (String × β)) (n : String)
    (h : l.lookup n = none) : (l ++ l2).lookup n = l2.lookup n := by
  induction l with
  | nil => rfl
  | cons p t ih =>
    obtain ⟨k, v⟩ := p
    cases hk : (n == k) with
    | true => exact Option.noConfusion (by simpa only [List.lookup, hk] using h)
    | false =>
      simp only [List.lookup, hk] at h ⊢
      exact ih h

/-- Lookup distributes over append when the key is found on the left. -/
theorem lookup_append_some {β : Type} (l l2 : List (String × β)) (n : String) (v : β)
    (h : l.lookup n = some v) : (l ++ l2).lookup n = some v := by
  induction l with
  | nil => exact Option.noConfusion h
  | cons p t ih =>
    obtain ⟨k, w⟩ := p
    cases hk : (n == k) with
    | true =>
      simp only [List.lookup, hk] at h ⊢
      exact h
    | false =>
      simp only [List.lookup, hk] at h ⊢
      exact ih h

/-- Initializing a feed's key never changes any feed's delivered list. -/
theorem getDelivered_initFeed (st : State) (name n : String) :
    getDelivered (initFeed st name) n = getDelivered st n := by
  unfold initFeed
  cases hs : (st.lookup name).isSome with
  | true => simp
  | false =>
    simp only [hs, Bool.false_eq_true, if_false]
    have hnone : st.lookup name = none := by
      cases h : st.lookup name with
      | none => rfl
      | some v => rw [h] at hs; simp at hs
    unfold getDelivered
    cases h2 : st.lookup n with
    | some v => rw [lookup_append_some st _ n v h2]
    | none =>
      rw [lookup_append_none st _ n h2]
      cases hnk : (n == name) <;> simp [List.lookup, hnk]

/-- After initialization the feed's key is present and holds its previous
delivered list. -/
theorem lookup_initFeed_self (st : State) (name : String) :
    (initFeed st name).lookup name = some (getDelivered st name) := by
  unfold initFeed getDelivered
  cases h : st.lookup name with
  | some v => simp [h]
  | none =>
    simp only [h, Option.isSome_none, Bool.false_eq_true, if_false, Option.getD_none]
    rw [lookup_append_none st _ name h]
    simp [List.lookup]

/-- Appending an identifier extends the feed's delivered list by exactly
that identifier. -/
theorem lookup_appendDelivered (st : State) (name : String) (x : Option String)
    (v : List (Option String)) (h : st.lookup name = some v) :
    (appendDelivered st name x).lookup name = some (v ++ [x]) := by
  induction st with
  | nil => exact Option.noConfusion h
  | cons p t ih =>
    obtain ⟨k, w⟩ := p
    cases hk : (name == k) with
    | true =>
      simp only [List.lookup, hk] at h
      injection h with hwv
      subst hwv
      simp [appendDelivered, hk, List.lookup]
    | false =>
      simp only [List.lookup, hk] at h
      simp [appendDelivered, hk, List.lookup]
      exact ih h

/-- The state component of the delivery loop ignores the send outcomes. -/
theorem foldl_send_fst (f : State → Entry → State) (g : Entry → SendOutcome) :
    ∀ (l : List Entry) (st0 : State) (s0 : List SendOutcome),
      (l.foldl (fun acc e => (f acc.1 e, acc.2 ++ [g e])) (st0, s0)).1 = l.foldl f st0
  | [], _, _ => rfl
  | e :: t, st0, s0 => foldl_send_fst f g t (f st0 e) (s0 ++ [g e])

/-- Folding the per-entry append over a list extends the feed's delivered
list by the identifiers of all the entries, in order. -/
theorem lookup_foldl_appendDelivered (name : String) :
    ∀ (l : List Entry) (st : State) (v : List (Option String)),
      st.lookup name = some v →
      ((l.foldl (fun s e => appendDelivered s name (entryId e)) st).lookup name)
        = some (v ++ l.map entryId)
  | [], st, v, h => by simpa using h
  | e :: t, st, v, h => by
    simp only [List.foldl, List.map]
    rw [lookup_foldl_appendDelivered name t _ _ (lookup_appendDelivered st name (entryId e) v h)]
    simp

/-- The state returned by `process_feed` is the initialized state with the
identifier of every new entry appended, independently of every send
outcome. -/
theorem process_feed_fst (rids : List (String × String)) (ok : String → String → Bool)
    (st : State) (name ra : String) (entries : List Entry) (now : Nat) :
    (process_feed rids ok st name ra entries now).1
      = (sortEntries now (newEntries (getDelivered (initFeed st name) name) entries)).foldl
          (fun s e => appendDelivered s name (entryId e)) (initFeed st name) := by
  unfold process_feed
  exact foldl_send_fst (fun s e => appendDelivered s name (entryId e))
    (fun e => send_html_message rids ok ra (msgText e)) _ _ _

/-! Claim theorems. -/

/-- C1 counterexample: one entry, an alias resolved to a room id, and a
transport that always raises.  The only send attempt submits to the
transport and fails (the exception is logged), yet the entry's identifier
`some "x"` ends up in the feed's delivered list, so the claim that a
failed send leaves the identifier out of the delivered set is false on
the code. -/
theorem C1_counterexample :
    ((process_feed [("#r", "!room")] (fun _ _ => false) [] "f" "#r"
        [⟨some "x", some "l", some "t", some "s", some 5⟩] 9).2.all
      (fun a => a.submitted.isSome && a.errorLogged)) = true ∧
    (process_feed [("#r", "!room")] (fun _ _ => false) [] "f" "#r"
        [⟨some "x", some "l", some "t", some "s", some 5⟩] 9).2.length = 1 ∧
    some "x" ∈ getDelivered (process_feed [("#r", "!room")] (fun _ _ => false) [] "f" "#r"
        [⟨some "x", some "l", some "t", some "s", some 5⟩] 9).1 "f" := by decide

/-- C1, amended: `send_html_message` catches and logs every transport
exception and returns nothing, so `process_feed` observes no failure and
appends the entry's line-166 identifier to the delivered list regardless
of the transport outcome — even when every send fails.  Consequently,
whenever the entry's line-163 filter key equals its recorded identifier
(as for every entry whose `id` is absent or non-empty), the entry is
excluded from the diff result of any later poll: it is not eligible for
redelivery despite never having been delivered.  (When the two keys
differ — the C3/C9 slip — the entry instead stays eligible forever.) -/
theorem C1_amended_send_failure_still_marked (rids : List (String × String))
    (ok : String → String → Bool) (st : State) (name ra : String)
    (entries : List Entry) (now : Nat) (e : Entry)
    (he : e ∈ newEntries (getDelivered (initFeed st name) name) entries) :
    entryId e ∈ getDelivered (process_feed rids ok st name ra entries now).1 name ∧
    (filterId e = entryId e → ∀ entries2,
      e ∉ newEntries (getDelivered (process_feed rids ok st name ra entries now).1 name)
        entries2) := by
  have h1 : entryId e ∈ getDelivered (process_feed rids ok st name ra entries now).1 name := by
    rw [getDelivered, process_feed_fst,
        lookup_foldl_appendDelivered name _ _ _ (lookup_initFeed_self st name)]
    simp only [Option.getD_some]
    exact List.mem_append_right _
      (List.mem_map_of_mem entryId ((List.mem_insertionSort _).mpr he))
  refine ⟨h1, fun hfe entries2 hmem => ?_⟩
  simp only [newEntries, List.mem_filter] at hmem
  have hc : (getDelivered (process_feed rids ok st name ra entries now).1 name).contains
      (filterId e) = true := by
    rw [hfe]
    exact List.elem_eq_true_of_mem h1
  rw [hc] at hmem
  simp at hmem

/-- C1 witness: the amended theorem applied to a concrete new entry (with
matching filter and record keys) under an always-failing transport: its
send fails, its identifier is appended anyway, and a second poll with the
same fetch result no longer lists it as new. -/
theorem C1_amended_send_failure_still_marked_witness :
    (⟨some "x", some "l", none, none, some 5⟩ : Entry) ∈
        newEntries (getDelivered (initFeed [] "f") "f") [⟨some "x", some "l", none, none, some 5⟩] ∧
    filterId ⟨some "x", some "l", none, none, some 5⟩
      = entryId ⟨some "x", some "l", none, none, some 5⟩ ∧
    entryId ⟨some "x", some "l", none, none, some 5⟩ ∈
        getDelivered (process_feed [("#r", "!room")] (fun _ _ => false) [] "f" "#r"
          [⟨some "x", some "l", none, none, some 5⟩] 9).1 "f" ∧
    ¬ (⟨some "x", some "l", none, none, some 5⟩ : Entry) ∈
        newEntries (getDelivered (process_feed [("#r", "!room")] (fun _ _ => false) [] "f" "#r"
          [⟨some "x", some "l", none, none, some 5⟩] 9).1 "f")
        [⟨some "x", some "l", none, none, some 5⟩] :=
  ⟨by decide, by decide,
   (C1_amended_send_failure_still_marked [("#r", "!room")] (fun _ _ => false) [] "f" "#r"
     [⟨some "x", some "l", none, none, some 5⟩] 9 ⟨some "x", some "l", none, none, some 5⟩
     (by decide)).1,
   (C1_amended_send_failure_still_marked [("#r", "!room")] (fun _ _ => false) [] "f" "#r"
     [⟨some "x", some "l", none, none, some 5⟩] 9 ⟨some "x", some "l", none, none, some 5⟩
     (by decide)).2 (by decide) [⟨some "x", some "l", none, none, some 5⟩]⟩

/-- C2 counterexample: an entry lacking a timestamp sorts with the key
`now` (here 10), so it is delivered before a timestamped entry whose
publication timestamp (20) lies in the future of `now` — not after all
timestamped entries, as the claim states. -/
theorem C2_counterexample :
    sortEntries 10 (newEntries []
        [⟨some "a", none, none, none, some 20⟩, ⟨some "b", none, none, none, none⟩])
      = [⟨some "b", none, none, none, none⟩, ⟨some "a", none, none, none, some 20⟩] ∧
    (⟨some "b", none, none, none, none⟩ : Entry).published_parsed = none ∧
    (⟨some "a", none, none, none, some 20⟩ : Entry).published_parsed = some 20 := by decide

/-- C2, amended: the diff-and-sequence step delivers the not-yet-delivered
entries sorted ascending by publication timestamp, where an entry lacking
a parsable timestamp takes the key `now` (the value of `time.gmtime()`),
and so sorts after the entries published before `now` but before entries
timestamped in the future; entries with timestamps [3,1,2] are delivered
in order [1,2,3]. -/
theorem C2_amended_diff_sort_ordering :
    (∀ now delivered entries,
        List.Sorted (leKey now) (sortEntries now (newEntries delivered entries)) ∧
        List.Perm (sortEntries now (newEntries delivered entries)) (newEntries delivered entries) ∧
        ∀ e ∈ sortEntries now (newEntries delivered entries),
          e.published_parsed = none → effKey now e = now) ∧
    sortEntries 0 (newEntries []
        [⟨some "3", none, none, none, some 3⟩, ⟨some "1", none, none, none, some 1⟩,
         ⟨some "2", none, none, none, some 2⟩])
      = [⟨some "1", none, none, none, some 1⟩, ⟨some "2", none, none, none, some 2⟩,
         ⟨some "3", none, none, none, some 3⟩] := by
  refine ⟨fun now delivered entries => ⟨?_, ?_, ?_⟩, by decide⟩
  · exact List.sorted_insertionSort (leKey now) _
  · exact List.perm_insertionSort (leKey now) _
  · intro e _ hnone
    simp [effKey, hnone]

/-- C2 witness: the amended theorem applied to a concrete untimestamped
entry, whose effective sort key is the current time. -/
theorem C2_amended_diff_sort_ordering_witness :
    (⟨none, none, none, none, none⟩ : Entry) ∈
        sortEntries 5 (newEntries [] [⟨none, none, none, none, none⟩]) ∧
    (⟨none, none, none, none, none⟩ : Entry).published_parsed = none ∧
    effKey 5 ⟨none, none, none, none, none⟩ = 5 :=
  ⟨by decide, rfl,
   (C2_amended_diff_sort_ordering.1 5 [] [⟨none, none, none, none, none⟩]).2.2 _ (by decide) rfl⟩

/-- C3: processing the same entry list twice is not idempotent.  The
entry with a present-but-empty `id` and link `"L"` is filtered under the
key `some ""` (line 163) but recorded under `some "L"` (line 166), so the
second pass sends it again and appends `some "L"` a second time, changing
the state. -/
theorem C3_second_pass_resends_falsy_id :
    (process_feed [("#r", "!room")] (fun _ _ => true) [] "f" "#r"
        [⟨some "", some "L", none, none, some 1⟩] 0).1 = [("f", [some "L"])] ∧
    (process_feed [("#r", "!room")] (fun _ _ => true) [] "f" "#r"
        [⟨some "", some "L", none, none, some 1⟩] 0).2.length = 1 ∧
    (process_feed [("#r", "!room")] (fun _ _ => true) [("f", [some "L"])] "f" "#r"
        [⟨some "", some "L", none, none, some 1⟩] 0).2.length = 1 ∧
    (process_feed [("#r", "!room")] (fun _ _ => true) [("f", [some "L"])] "f" "#r"
        [⟨some "", some "L", none, none, some 1⟩] 0).1 = [("f", [some "L", some "L"])] := by decide

/-- C4 counterexample: when the state file exists but `yaml.safe_load`
raises, `load_state` propagates the exception instead of returning the
empty mapping. -/
theorem C4_counterexample :
    load_state true YamlLoad.err = Except.error () ∧
    load_state true YamlLoad.err ≠ Except.ok [] :=
  ⟨rfl, fun h => by simp [load_state] at h⟩

/-- C4, amended: `load_state` returns the empty mapping when the state
file is absent or parses to YAML null (an empty file), returns a parsed
document as-is, and lets a parse error propagate as an uncaught exception
(crashing the constructor that calls it) rather than degrading to the
empty mapping. -/
theorem C4_amended_load_state_behavior :
    (∀ p, load_state false p = Except.ok []) ∧
    load_state true (YamlLoad.ok none) = Except.ok [] ∧
    (∀ st : State, load_state true (YamlLoad.ok (some st)) = Except.ok st) ∧
    load_state true YamlLoad.err = Except.error () :=
  ⟨fun _ => rfl, rfl, fun _ => rfl, rfl⟩

/-- C4 witness: the amended theorem applied to a missing file and to a
concrete parsed document. -/
theorem C4_amended_load_state_behavior_witness :
    load_state false YamlLoad.err = Except.ok [] ∧
    load_state true (YamlLoad.ok (some [("f", [some "i"])])) = Except.ok [("f", [some "i"])] :=
  ⟨C4_amended_load_state_behavior.1 YamlLoad.err,
   C4_amended_load_state_behavior.2.2.1 [("f", [some "i"])]⟩

/-- C5 counterexample: saving is not atomic.  A crash between the
truncation performed by `open(STATE_FILE, "w")` and the write performed
by `yaml.dump` leaves the file empty — neither the old document `"x"` nor
the new document `"y"`. -/
theorem C5_counterexample :
    (¬ atomicOnCrash (save_state_ops "y") "x" "y") ∧
    runOps "x" ((save_state_ops "y").take 1) = "" := by
  constructor
  · intro h
    rcases h 1 with hk | hk <;> exact absurd hk (by decide)
  · rfl

/-- C5, amended: `save_state` overwrites the state file in place —
truncate, then write — with no temporary file and no rename.  A completed
save holds exactly the new document, but a crash between the two steps
leaves an empty file, so whenever the old and new documents are both
non-empty the write-to-temp-then-rename atomicity property fails. -/
theorem C5_amended_save_truncates_in_place (old doc : String)
    (h1 : old ≠ "") (h2 : doc ≠ "") :
    runOps old (save_state_ops doc) = doc ∧
    runOps old ((save_state_ops doc).take 1) = "" ∧
    ¬ atomicOnCrash (save_state_ops doc) old doc := by
  have hempty : runOps old ((save_state_ops doc).take 1) = "" := rfl
  refine ⟨?_, hempty, ?_⟩
  · show ("" : String) ++ doc = doc
    exact String.empty_append doc
  · intro h
    rcases h 1 with hk | hk
    · rw [hempty] at hk; exact h1 hk.symm
    · rw [hempty] at hk; exact h2 hk.symm

/-- C5 witness: the amended theorem applied to concrete old and new
documents. -/
theorem C5_amended_save_truncates_in_place_witness :
    ("a" : String) ≠ "" ∧ ("b" : String) ≠ "" ∧
    (runOps "a" (save_state_ops "b") = "b" ∧
     runOps "a" ((save_state_ops "b").take 1) = "" ∧
     ¬ atomicOnCrash (save_state_ops "b") "a" "b") :=
  ⟨by decide, by decide, C5_amended_save_truncates_in_place "a" "b" (by decide) (by decide)⟩

/-- C6: `main` starts a single task running `process_feeds_loop`, which
processes the configured feeds sequentially and sleeps each feed's
interval in turn, so every feed is next polled one full round — the sum
of all feeds' intervals — after its previous poll.  With feeds of
intervals 1 and 100 seconds, the first feed is re-polled after 101
seconds instead of 1: one feed's sleep interval does delay the other's
next tick, contradicting the claim (and the function's own docstring,
which promises each feed is checked at its configured interval). -/
theorem C6_single_loop_couples_cadences :
    (∀ feeds i r, pollTime feeds i (r + 1) = pollTime feeds i r + roundLen feeds) ∧
    pollGap [("a", 1), ("b", 100)] 0 0 = 101 ∧
    pollGap [("a", 1)] 0 0 = 1 := by
  refine ⟨fun feeds i r => ?_, by decide, by decide⟩
  unfold pollTime
  rw [Nat.succ_mul]
  omega

/-- C7: the scenario part of the claim holds — with delivered set
containing `e1` and a fetch returning old `e1` and new `e2`, only `e2` is
sent and the delivered list becomes `[e1, e2]` — but the universal
exactness part fails: an entry with a present-but-empty `id` and link
`"L"` already delivered is filtered under `some ""`, hence sent again,
and its recorded identifier duplicates `some "L"` while `some ""` is
never marked delivered. -/
theorem C7_identifier_mismatch_breaks_exactness :
    (process_feed [("#r", "!room")] (fun _ _ => true) [("f", [some "e1"])] "f" "#r"
        [⟨some "e1", some "l1", none, none, some 1⟩, ⟨some "e2", some "l2", none, none, some 2⟩] 0).1
      = [("f", [some "e1", some "e2"])] ∧
    (process_feed [("#r", "!room")] (fun _ _ => true) [("f", [some "e1"])] "f" "#r"
        [⟨some "e1", some "l1", none, none, some 1⟩, ⟨some "e2", some "l2", none, none, some 2⟩] 0).2.length
      = 1 ∧
    (process_feed [("#r", "!room")] (fun _ _ => true) [("f", [some "L"])] "f" "#r"
        [⟨some "", some "L", none, none, some 1⟩] 0).2.length = 1 ∧
    (process_feed [("#r", "!room")] (fun _ _ => true) [("f", [some "L"])] "f" "#r"
        [⟨some "", some "L", none, none, some 1⟩] 0).1 = [("f", [some "L", some "L"])] ∧
    ¬ some "" ∈ getDelivered (process_feed [("#r", "!room")] (fun _ _ => true) [("f", [some "L"])] "f"
        "#r" [⟨some "", some "L", none, none, some 1⟩] 0).1 "f" := by decide

/-- C8 counterexample: with an empty fetch for a feed whose key is not yet
in the state, `process_feed` still mutates the in-memory mapping (and
line 178 rewrites the persisted document accordingly): the state changes
from the empty mapping to one holding the feed's key with an empty
list. -/
theorem C8_counterexample :
    (process_feed [] (fun _ _ => true) [] "alpha" "#r" [] 0).1 = [("alpha", [])] ∧
    (process_feed [] (fun _ _ => true) [] "alpha" "#r" [] 0).1 ≠ ([] : State) := by decide

/-- C8, amended: with an empty fetch, `process_feed` performs no send
attempts, raises no error (it is total), and leaves every feed's
delivered-ID list unchanged; the only state change is that the feed's key
is created with an empty list when absent, and the (unchanged in content)
document is rewritten by `save_state`. -/
theorem C8_amended_empty_fetch_frame (rids : List (String × String))
    (ok : String → String → Bool) (st : State) (name ra : String) (now : Nat) :
    (process_feed rids ok st name ra [] now).2 = [] ∧
    ∀ n, getDelivered (process_feed rids ok st name ra [] now).1 n = getDelivered st n := by
  constructor
  · rfl
  · intro n
    show getDelivered (initFeed st name) n = getDelivered st n
    exact getDelivered_initFeed st name n

/-- C8 witness: the amended theorem applied to a concrete prior state. -/
theorem C8_amended_empty_fetch_frame_witness :
    (process_feed [] (fun _ _ => true) [("x", [some "u"])] "alpha" "#r" [] 3).2 = [] ∧
    getDelivered (process_feed [] (fun _ _ => true) [("x", [some "u"])] "alpha" "#r" [] 3).1 "x"
      = getDelivered [("x", [some "u"])] "x" :=
  ⟨(C8_amended_empty_fetch_frame [] (fun _ _ => true) [("x", [some "u"])] "alpha" "#r" 3).1,
   (C8_amended_empty_fetch_frame [] (fun _ _ => true) [("x", [some "u"])] "alpha" "#r" 3).2 "x"⟩

/-- C9: the two identifier-resolution rules of the code disagree.  For an
entry with a present-but-empty `id` and link `"L"`, the filter key of
line 163 is `some ""` while the recorded identifier of line 166 is
`some "L"`, so the identifier used to filter against the delivered set is
not the identifier recorded as delivered, refuting the single-rule
claim. -/
theorem C9_filter_and_record_ids_differ :
    filterId ⟨some "", some "L", none, none, none⟩ = some "" ∧
    entryId ⟨some "", some "L", none, none, none⟩ = some "L" ∧
    filterId ⟨some "", some "L", none, none, none⟩
      ≠ entryId ⟨some "", some "L", none, none, none⟩ := by decide

/-- C10: a delivery attempt whose destination alias is not in the room
cache and is not itself a concrete room id (no leading `!`) performs no
transport submission and logs an error, while a destination whose alias
is cached with a concrete room id is submitted to the transport at that
room id — deliveries for resolved destinations proceed unaffected. -/
theorem C10_unresolved_alias_fails_resolved_proceeds
    (room_ids : List (String × String)) (transportOk : String → String → Bool) :
    (∀ dest text, room_ids.lookup dest = none → startsBang dest = false →
        send_html_message room_ids transportOk dest text
          = { submitted := none, errorLogged := true }) ∧
    (∀ dest text rid, room_ids.lookup dest = some rid → startsBang rid = true →
        (send_html_message room_ids transportOk dest text).submitted = some (rid, text)) := by
  constructor
  · intro dest text h1 h2
    unfold send_html_message
    rw [h1]
    simp [Option.getD, h2]
  · intro dest text rid h1 h2
    unfold send_html_message
    rw [h1]
    simp only [Option.getD_some, h2, Bool.not_true, Bool.false_eq_true, if_false]
    cases htr : transportOk rid text <;> simp [htr]

/-- C10 witness: the theorem applied to a concrete cache with one
resolved alias, once for an unresolved destination and once for the
resolved one. -/
theorem C10_unresolved_alias_fails_resolved_proceeds_witness :
    ([("#good", "!r")].lookup "#bad" = (none : Option String)) ∧
    startsBang "#bad" = false ∧
    send_html_message [("#good", "!r")] (fun _ _ => true) "#bad" "hi"
      = { submitted := none, errorLogged := true } ∧
    [("#good", "!r")].lookup "#good" = some "!r" ∧
    startsBang "!r" = true ∧
    (send_html_message [("#good", "!r")] (fun _ _ => true) "#good" "hi").submitted
      = some ("!r", "hi") :=
  ⟨by decide, by decide,
   (C10_unresolved_alias_fails_resolved_proceeds [("#good", "!r")] (fun _ _ => true)).1
     "#bad" "hi" (by decide) (by decide),
   by decide, by decide,
   (C10_unresolved_alias_fails_resolved_proceeds [("#good", "!r")] (fun _ _ => true)).2
     "#good" "hi" "!r" (by decide) (by decide)⟩

end Russy
